import Mathlib

/-!
# Authentication service: handler, password check, JSON shape, startup retry

A shallow embedding of `cmd/api/handlers.go`, `cmd/api/main.go` and
`data/models.go`.

* Pointers that may be nil (`*User`, `*sql.DB`, `error`) are `Option` values.
* A nil pointer dereference is an explicit `Panic` result.
* Calls into libraries outside the repository (the JSON toolkit, the SQL
  driver, bcrypt) are fields of an environment record, so every statement is
  proved for all behaviours of those libraries.
* The handler is a function from an environment and a request to the list of
  effects it performs, in order, together with the way it ends.
-/

namespace AuthService

/-! ## Go values -/

/-- Go `error` values that are not nil.  `errors.Is` against the bcrypt sentinel
is identity of the sentinel, so the sentinel is a constructor of its own and an
error made with `errors.New` is never equal to it, whatever its text. -/
inductive GoError where
  | ErrMismatchedHashAndPassword
  | New (msg : String)
  deriving DecidableEq, Repr

/-- The `Error()` method. -/
def GoError.Error : GoError → String
  | .ErrMismatchedHashAndPassword =>
      "crypto/bcrypt: hashedPassword is not the hash of the given password"
  | .New msg => msg

/-- Go `time.Time`, as an instant. -/
structure Time where
  unixNano : Int
  deriving DecidableEq, Repr

/-- Go panics that the modelled code can raise. -/
inductive Panic where
  | nilPointerDereference
  deriving DecidableEq, Repr

deriving instance DecidableEq for Except

/-! ## data/models.go -/

/-- The `User` struct of `data/models.go`, fields in declaration order. -/
structure User where
  ID : Int
  Email : String
  FirstName : String
  LastName : String
  Password : String
  Active : Int
  CreatedAt : Time
  UpdatedAt : Time
  deriving DecidableEq, Repr

/-- The `RequestPayload` struct of `cmd/api/handlers.go`. -/
structure RequestPayload where
  Email : String
  Password : String
  deriving DecidableEq, Repr

/-- The `toolkit.JSONResponse` envelope, with the three fields the handler
sets in its composite literal.  `Data` has an interface type; the handler
stores a `*User` in it, and `none` is the nil interface. -/
structure JSONResponse where
  Error : Bool
  Message : String
  Data : Option User
  deriving DecidableEq, Repr

/-- The libraries the service calls into.
* `ReadJSON body` is `tools.ReadJSON(w, r, &payload)`: the contents of `payload`
  after the call, and the returned error (nil is `none`).  On an error the
  payload may be zero-valued or filled in, both are allowed.
* `QueryRowScan email` is `db.QueryRowContext(..., email)` followed by
  `row.Scan(...)` into a fresh `User`.
* `CompareHashAndPassword hash pwd` is `bcrypt.CompareHashAndPassword`. -/
structure Env where
  ReadJSON : String → RequestPayload × Option GoError
  QueryRowScan : String → Except GoError User
  CompareHashAndPassword : String → String → Option GoError

/-- `User.GetByEmail`: a nil user together with the error when the scan fails,
a pointer to the scanned user and a nil error otherwise. -/
def GetByEmail (env : Env) (email : String) : Option User × Option GoError :=
  match env.QueryRowScan email with
  | .error err => (none, some err)
  | .ok user => (some user, none)

/-- `User.PasswordMatches` on a receiver `u : *User`.  The first thing the body
does is read `u.Password`, which panics on a nil receiver. -/
def PasswordMatches (env : Env) (u : Option User) (pwd : String) :
    Except Panic (Bool × Option GoError) :=
  match u with
  | none => .error .nilPointerDereference
  | some u =>
    match env.CompareHashAndPassword u.Password pwd with
    | some err =>
      if err = GoError.ErrMismatchedHashAndPassword then .ok (false, none)
      else .ok (false, some err)
    | none => .ok (true, none)

/-! ## cmd/api/handlers.go -/

/-- `http.StatusBadRequest`. -/
def StatusBadRequest : Nat := 400

/-- `http.StatusAccepted`. -/
def StatusAccepted : Nat := 202

/-- What the handler does that is visible from outside its body: its calls
into the toolkit and the repository, with their arguments.  `ErrorJSON` and
`WriteJSON` are the two calls that write a response to `w`. -/
inductive Event where
  | ReadJSON (body : String)
  | GetByEmail (email : String)
  | PasswordMatches (receiver : Option User) (pwd : String)
  | ErrorJSON (err : GoError) (status : Nat)
  | WriteJSON (status : Nat) (payload : JSONResponse)
  deriving DecidableEq, Repr

/-- How a handler invocation ends. -/
inductive Outcome where
  | returned
  | panicked (p : Panic)
  deriving DecidableEq, Repr

/-- One invocation of the handler: its effects in order, and its end. -/
structure Run where
  events : List Event
  outcome : Outcome
  deriving DecidableEq, Repr

/-- `errors.New("invalid credentials")`. -/
def errInvalidCredentials : GoError := .New "invalid credentials"

/-- `Config.Authenticate`, statement by statement.  Neither of the first two
`if err != nil` blocks ends in `return`, so control falls through to the next
statement in both. -/
def Authenticate (env : Env) (r : String) : Run :=
  -- err := tools.ReadJSON(w, r, &payload)
  let (payload, err) := env.ReadJSON r
  let w₀ := [Event.ReadJSON r]
  let w₁ := match err with
    | some e => w₀ ++ [Event.ErrorJSON e StatusBadRequest]
    | none => w₀
  -- user, err := app.Models.User.GetByEmail(payload.Email)
  let (user, err) := GetByEmail env payload.Email
  let w₂ := w₁ ++ [Event.GetByEmail payload.Email]
  let w₃ := match err with
    | some _ => w₂ ++ [Event.ErrorJSON errInvalidCredentials StatusBadRequest]
    | none => w₂
  -- valid, err := user.PasswordMatches(payload.Password)
  let w₄ := w₃ ++ [Event.PasswordMatches user payload.Password]
  match PasswordMatches env user payload.Password with
  | .error p => { events := w₄, outcome := .panicked p }
  | .ok (valid, err) =>
    if err.isSome || !valid then
      { events := w₄ ++ [Event.ErrorJSON errInvalidCredentials StatusBadRequest],
        outcome := .returned }
    else
      -- user.Email and Data: user; a nil user cannot get here, it panics above
      match user with
      | none => { events := w₄, outcome := .panicked .nilPointerDereference }
      | some u =>
        let successPayload : JSONResponse :=
          { Error := false, Message := "Logged in user " ++ u.Email, Data := some u }
        { events := w₄ ++ [Event.WriteJSON StatusAccepted successPayload],
          outcome := .returned }

/-- The status a call writes to `w`, if it writes a response. -/
def Event.status : Event → Option Nat
  | .ErrorJSON _ status => some status
  | .WriteJSON status _ => some status
  | _ => none

/-- The responses written to `w`, in order: the `ErrorJSON` and `WriteJSON`
calls of the run. -/
def Run.responses (run : Run) : List Event :=
  run.events.filter fun e => e.status.isSome

/-- The responses of the run written with a given status. -/
def Run.responsesWith (run : Run) (status : Nat) : List Event :=
  run.responses.filter fun e => e.status == some status

/-- The envelopes the run passed to `WriteJSON`, in order. -/
def Run.written (run : Run) : List JSONResponse :=
  run.events.filterMap fun
    | .WriteJSON _ payload => some payload
    | _ => none

/-- The emails `GetByEmail` was called with, in order. -/
def Run.lookups (run : Run) : List String :=
  run.events.filterMap fun
    | .GetByEmail email => some email
    | _ => none

/-- The receivers `PasswordMatches` was called on, in order. -/
def Run.receivers (run : Run) : List (Option User) :=
  run.events.filterMap fun
    | .PasswordMatches receiver _ => some receiver
    | _ => none

/-- The generic failure response: `ErrorJSON` with "invalid credentials" and
status 400. -/
def invalidCredentials : Event :=
  .ErrorJSON errInvalidCredentials StatusBadRequest

/-! ## JSON representation (struct tags of `data/models.go`) -/

/-- JSON values.  A `time.Time` is written as its RFC 3339 text; the text is
determined by the instant, which is what the `time` constructor carries. -/
inductive JSON where
  | null
  | bool (b : Bool)
  | number (n : Int)
  | string (s : String)
  | time (t : Time)
  | object (members : List (String × JSON))

/-- One struct field as `encoding/json` sees it: the key and options of its
`json:"..."` tag, and the encoded value of the field.  `skip` is the tag `"-"`. -/
structure StructField where
  key : String
  skip : Bool
  omitempty : Bool
  value : JSON

/-- The `omitempty` test of `encoding/json`: false, 0, nil and the empty
string are empty; a struct such as `time.Time` never is. -/
def isEmptyValue : JSON → Bool
  | .null => true
  | .bool b => !b
  | .number n => n == 0
  | .string s => s.length == 0
  | .time _ => false
  | .object _ => false

/-- Encoding of a struct: fields in declaration order, without the skipped
ones and without the empty `omitempty` ones. -/
def marshalStruct (fields : List StructField) : JSON :=
  .object (fields.filterMap fun f =>
    if f.skip then none
    else if f.omitempty && isEmptyValue f.value then none
    else some (f.key, f.value))

/-- The fields of `User` with their tags, as declared in `data/models.go`. -/
def User.jsonFields (u : User) : List StructField :=
  [ { key := "id", skip := false, omitempty := false, value := .number u.ID },
    { key := "email", skip := false, omitempty := false, value := .string u.Email },
    { key := "first_name", skip := false, omitempty := true, value := .string u.FirstName },
    { key := "last_name", skip := false, omitempty := true, value := .string u.LastName },
    { key := "-", skip := true, omitempty := false, value := .string u.Password },
    { key := "active", skip := false, omitempty := false, value := .number u.Active },
    { key := "created_at", skip := false, omitempty := false, value := .time u.CreatedAt },
    { key := "updated_at", skip := false, omitempty := false, value := .time u.UpdatedAt } ]

/-- JSON representation of a `User`. -/
def User.MarshalJSON (u : User) : JSON :=
  marshalStruct u.jsonFields

/-- Modelled from the spec: the tags of the external `toolkit.JSONResponse`,
which the spec gives as `{ error, message, data }` on success and
`{ error, message }` on failure, so `data` is left out when it is nil. -/
def JSONResponse.jsonFields (resp : JSONResponse) : List StructField :=
  [ { key := "error", skip := false, omitempty := false, value := .bool resp.Error },
    { key := "message", skip := false, omitempty := false, value := .string resp.Message },
    { key := "data", skip := false, omitempty := true,
      value := match resp.Data with
        | none => .null
        | some u => u.MarshalJSON } ]

/-- JSON body of a response envelope. -/
def JSONResponse.MarshalJSON (resp : JSONResponse) : JSON :=
  marshalStruct resp.jsonFields

/-- The keys of a JSON object, in order (no keys for other values). -/
def JSON.keys : JSON → List String
  | .object members => members.map Prod.fst
  | _ => []

/-- The value stored under a key of a JSON object, if any. -/
def JSON.member (key : String) : JSON → Option JSON
  | .object members => (members.find? fun m => m.1 == key).map Prod.snd
  | _ => none

/-- The same envelope carrying a user whose `Password` field is `p`. -/
def JSONResponse.withPassword (resp : JSONResponse) (p : String) : JSONResponse :=
  { resp with Data := resp.Data.map fun u => { u with Password := p } }

/-! ## cmd/api/main.go -/

/-- An open `*sql.DB` handle. -/
structure DB where
  handle : Nat
  deriving DecidableEq, Repr

/-- The SQL driver, asked at the `n`-th call of `openDB` (counted from 0):
`Open n dsn` is `sql.Open("pgx", dsn)` and `Ping n db` is `db.Ping()`. -/
structure SqlDriver where
  Open : Nat → String → Except GoError DB
  Ping : Nat → DB → Option GoError

/-- The constant `maxDBRetries`. -/
def maxDBRetries : Int := 10

/-- `counts++` on an `int64`. -/
def incr64 (c : Int) : Int :=
  if c + 1 > 9223372036854775807 then -9223372036854775808 else c + 1

/-- `openDB`, at its `n`-th call. -/
def openDB (drv : SqlDriver) (n : Nat) (dsn : String) : Option DB × Option GoError :=
  match drv.Open n dsn with
  | .error err => (none, some err)
  | .ok db =>
    match drv.Ping n db with
    | some err => (none, some err)
    | none => (some db, none)

/-- Effects of the startup routine, the log lines left out. -/
inductive StartupEvent where
  | openDB (dsn : String)
  | Sleep (seconds : Nat)
  deriving DecidableEq, Repr

/-- Result of `connectToDB`: the returned `*sql.DB`, the value of the global
`counts` afterwards, and the effects in order. -/
structure Startup where
  connection : Option DB
  counts : Int
  trace : List StartupEvent
  deriving DecidableEq, Repr

/-- The `for` loop of `connectToDB`.  `counts` is the global retry counter on
entry, `n` the number of `openDB` calls made so far, and `fuel` bounds the
number of iterations; `none` means the fuel ran out. -/
def connectLoop (drv : SqlDriver) (dsn : String) :
    (fuel : Nat) → (counts : Int) → (n : Nat) → Option Startup
  | 0, _, _ => none
  | fuel + 1, counts, n =>
    match openDB drv n dsn with
    | (connection, none) =>
      some { connection := connection, counts := counts, trace := [.openDB dsn] }
    | (_, some _) =>
      let counts := incr64 counts
      if counts > maxDBRetries then
        some { connection := none, counts := counts, trace := [.openDB dsn] }
      else
        (connectLoop drv dsn fuel counts (n + 1)).map fun s =>
          { s with trace := .openDB dsn :: .Sleep 2 :: s.trace }

/-- `connectToDB` with `dsn` the value of the environment variable and
`counts` the global counter when it is called. -/
def connectToDB (drv : SqlDriver) (dsn : String) (fuel : Nat) (counts : Int) :
    Option Startup :=
  connectLoop drv dsn fuel counts 0

/-- The effects of `k` failed attempts, each followed by the 2-second sleep,
and then one more attempt. -/
def retryTrace (dsn : String) : Nat → List StartupEvent
  | 0 => [.openDB dsn]
  | k + 1 => .openDB dsn :: .Sleep 2 :: retryTrace dsn k

/-- Number of `openDB` calls in a trace. -/
def openCalls (trace : List StartupEvent) : Nat :=
  (trace.filter fun
    | .openDB _ => true
    | _ => false).length

/-- Number of sleeps in a trace. -/
def sleeps (trace : List StartupEvent) : Nat :=
  (trace.filter fun
    | .Sleep _ => true
    | _ => false).length

/-! ## A concrete store (the scenario of the spec, section 8.7) -/

/-- The stored user `a@x.com`. -/
def alice : User :=
  { ID := 1, Email := "a@x.com", FirstName := "Alice", LastName := "",
    Password := "$2a$12$stored-hash-of-secret", Active := 1,
    CreatedAt := ⟨0⟩, UpdatedAt := ⟨0⟩ }

/-- Body with the right password of `a@x.com`. -/
def bodySecret : String := "\x7b\"email\":\"a@x.com\",\"password\":\"secret\"\x7d"

/-- Body with a wrong password for `a@x.com`. -/
def bodyWrong : String := "\x7b\"email\":\"a@x.com\",\"password\":\"wrong\"\x7d"

/-- Body with an email that is not in the store. -/
def bodyMissing : String := "\x7b\"email\":\"missing@x.com\",\"password\":\"anything\"\x7d"

/-- A truncated body. -/
def bodyTruncated : String := "\x7b\"email\":"

/-- An environment whose store holds `alice` only, whose decoder knows the
three well-formed bodies above and leaves the payload zero-valued on anything
else, and whose hash comparison accepts `secret` for the stored hash. -/
def sampleEnv : Env where
  ReadJSON body :=
    if body = bodySecret then ({ Email := "a@x.com", Password := "secret" }, none)
    else if body = bodyWrong then ({ Email := "a@x.com", Password := "wrong" }, none)
    else if body = bodyMissing then
      ({ Email := "missing@x.com", Password := "anything" }, none)
    else ({ Email := "", Password := "" }, some (.New "unexpected EOF"))
  QueryRowScan email :=
    if email = "a@x.com" then .ok alice
    else .error (.New "sql: no rows in result set")
  CompareHashAndPassword hash pwd :=
    if hash = "$2a$12$stored-hash-of-secret" ∧ pwd = "secret" then none
    else some .ErrMismatchedHashAndPassword

/-- A driver that never connects. -/
def downDriver : SqlDriver where
  Open _ _ := .ok ⟨0⟩
  Ping _ _ := some (.New "connection refused")

/-- A driver whose database answers from the fourth attempt on. -/
def slowDriver : SqlDriver where
  Open n _ := .ok ⟨n⟩
  Ping n _ := if n < 3 then some (.New "connection refused") else none

/-! ## The handler -/

/-- Whatever `ReadJSON` returns, the handler calls `GetByEmail`, once, with the
email held by the payload. -/
theorem authenticate_always_looks_up (env : Env) (r : String) :
    (Authenticate env r).lookups = [(env.ReadJSON r).1.Email] := by
  rcases hdec : env.ReadJSON r with ⟨payload, err⟩
  rcases hget : GetByEmail env payload.Email with ⟨user, err'⟩
  cases hpw : PasswordMatches env user payload.Password with
  | error e =>
    cases err <;> cases err' <;>
      simp [Authenticate, hdec, hget, hpw, Run.lookups]
  | ok res =>
    rcases res with ⟨valid, err''⟩
    cases err <;> cases err' <;> cases err'' <;> cases valid <;> cases user <;>
      simp [Authenticate, hdec, hget, hpw, Run.lookups]

/-- Whenever `GetByEmail` returns a nil user, the handler panics on the nil
pointer. -/
theorem authenticate_nil_user_panics (env : Env) (r : String)
    (hnil : (GetByEmail env (env.ReadJSON r).1.Email).1 = none) :
    (Authenticate env r).outcome = .panicked .nilPointerDereference := by
  rcases hdec : env.ReadJSON r with ⟨payload, err⟩
  rcases hget : GetByEmail env payload.Email with ⟨user, err'⟩
  rw [hdec] at hnil
  simp only [hget] at hnil
  subst hnil
  simp [Authenticate, hdec, hget, PasswordMatches]

/-- C1.  When the body decodes without error, `GetByEmail` returns a user `u`
without error and `u.PasswordMatches` returns `(true, nil)`, the handler writes
exactly one response: `WriteJSON` with status 202 and the envelope whose error
flag is false, whose message is "Logged in user " followed by `u.Email` and
whose data is `u`.  No 400 response is written, and the handler returns. -/
theorem authenticate_accepts (env : Env) (r : String) (payload : RequestPayload) (u : User)
    (hdec : env.ReadJSON r = (payload, none))
    (hget : GetByEmail env payload.Email = (some u, none))
    (hpw : PasswordMatches env (some u) payload.Password = .ok (true, none)) :
    (Authenticate env r).responses =
        [.WriteJSON StatusAccepted
          { Error := false, Message := "Logged in user " ++ u.Email, Data := some u }]
      ∧ (Authenticate env r).responsesWith StatusBadRequest = []
      ∧ (Authenticate env r).outcome = .returned := by
  have hrun : Authenticate env r =
      { events := [.ReadJSON r, .GetByEmail payload.Email,
          .PasswordMatches (some u) payload.Password,
          .WriteJSON StatusAccepted
            { Error := false, Message := "Logged in user " ++ u.Email, Data := some u }],
        outcome := .returned } := by
    simp [Authenticate, hdec, hget, hpw]
  rw [hrun]
  simp [Run.responsesWith, Run.responses, Event.status, StatusAccepted, StatusBadRequest]

/-- Witness of C1 on the sample store: the right password of `a@x.com`. -/
theorem authenticate_accepts_witness :
    (Authenticate sampleEnv bodySecret).responses =
        [.WriteJSON 202
          { Error := false, Message := "Logged in user a@x.com", Data := some alice }]
      ∧ (Authenticate sampleEnv bodySecret).responsesWith StatusBadRequest = []
      ∧ (Authenticate sampleEnv bodySecret).outcome = .returned :=
  authenticate_accepts sampleEnv bodySecret { Email := "a@x.com", Password := "secret" } alice
    (by decide) (by decide) (by decide)

/-- C2.  When the body decodes without error and `GetByEmail` returns a user
without error, and `PasswordMatches` returns false or returns an error, the
handler writes exactly one response, `ErrorJSON` with status 400 and the
message "invalid credentials"; it writes no 202 response, and it returns. -/
theorem authenticate_rejects_bad_password (env : Env) (r : String)
    (payload : RequestPayload) (u : User) (valid : Bool) (err : Option GoError)
    (hdec : env.ReadJSON r = (payload, none))
    (hget : GetByEmail env payload.Email = (some u, none))
    (hpw : PasswordMatches env (some u) payload.Password = .ok (valid, err))
    (hbad : valid = false ∨ err ≠ none) :
    (Authenticate env r).responses = [.ErrorJSON (.New "invalid credentials") 400]
      ∧ (Authenticate env r).responsesWith StatusAccepted = []
      ∧ (Authenticate env r).outcome = .returned := by
  have hcond : (err.isSome || !valid) = true := by
    rcases hbad with h | h
    · simp [h]
    · cases err with
      | none => exact absurd rfl h
      | some e => simp
  have hrun : Authenticate env r =
      { events := [.ReadJSON r, .GetByEmail payload.Email,
          .PasswordMatches (some u) payload.Password, invalidCredentials],
        outcome := .returned } := by
    simp only [Authenticate, hdec, hget, hpw, hcond]
    simp [invalidCredentials]
  rw [hrun]
  simp [Run.responsesWith, Run.responses, Event.status, invalidCredentials,
    errInvalidCredentials, StatusAccepted, StatusBadRequest]

/-- Witness of C2 on the sample store: a wrong password for `a@x.com`. -/
theorem authenticate_rejects_bad_password_witness :
    (Authenticate sampleEnv bodyWrong).responses
        = [.ErrorJSON (.New "invalid credentials") 400]
      ∧ (Authenticate sampleEnv bodyWrong).responsesWith StatusAccepted = []
      ∧ (Authenticate sampleEnv bodyWrong).outcome = .returned :=
  authenticate_rejects_bad_password sampleEnv bodyWrong
    { Email := "a@x.com", Password := "wrong" } alice false none
    (by decide) (by decide) (by decide) (Or.inl rfl)

/-- C3, at the request of the sample store whose email is absent.  The handler
writes the one generic 400 response and then, there being no `return` after it,
calls `PasswordMatches` on the nil user: it panics instead of returning. -/
theorem authenticate_unknown_email_run :
    Authenticate sampleEnv bodyMissing =
      { events := [.ReadJSON bodyMissing, .GetByEmail "missing@x.com",
          .ErrorJSON (.New "invalid credentials") 400,
          .PasswordMatches none "anything"],
        outcome := .panicked .nilPointerDereference } := by
  decide

/-- C4, at two requests of the sample store.  The responses written for an
absent email and for a present email with a wrong password are the same, but
the first handler run panics and the second returns, so the two outcomes
differ. -/
theorem authenticate_enumeration_outcomes_differ :
    (Authenticate sampleEnv bodyMissing).responses
        = (Authenticate sampleEnv bodyWrong).responses
      ∧ (Authenticate sampleEnv bodyMissing).outcome = .panicked .nilPointerDereference
      ∧ (Authenticate sampleEnv bodyWrong).outcome = .returned
      ∧ decide ((Authenticate sampleEnv bodyMissing).outcome
          = (Authenticate sampleEnv bodyWrong).outcome) = false := by
  decide

/-- C5, at a truncated body.  After the 400 response that carries the decode
error the handler goes on: it calls `GetByEmail` with the zero-valued email,
writes a second 400 response and calls `PasswordMatches`. -/
theorem authenticate_malformed_body_run :
    Authenticate sampleEnv bodyTruncated =
      { events := [.ReadJSON bodyTruncated,
          .ErrorJSON (.New "unexpected EOF") 400,
          .GetByEmail "",
          .ErrorJSON (.New "invalid credentials") 400,
          .PasswordMatches none ""],
        outcome := .panicked .nilPointerDereference }
      ∧ (Authenticate sampleEnv bodyTruncated).responses.length = 2
      ∧ (Authenticate sampleEnv bodyTruncated).lookups = [""] := by
  decide

/-- C10, at the request of the sample store whose email is absent.
`PasswordMatches` is invoked exactly once, on the nil user that `GetByEmail`
returned with its error, and the handler panics. -/
theorem authenticate_calls_passwordMatches_on_nil :
    GetByEmail sampleEnv "missing@x.com"
        = (none, some (.New "sql: no rows in result set"))
      ∧ (Authenticate sampleEnv bodyMissing).receivers = [none]
      ∧ PasswordMatches sampleEnv none "anything" = .error .nilPointerDereference
      ∧ (Authenticate sampleEnv bodyMissing).outcome = .panicked .nilPointerDereference := by
  decide

/-! ## PasswordMatches -/

/-- C9.  On a user `u`, `PasswordMatches` returns `(true, nil)` exactly when
the hash comparison reports no error, `(false, nil)` exactly when it reports
the mismatched-hash-and-password error, and `(false, e)` for every other
comparison error `e`.  On no receiver does it return true with an error. -/
theorem passwordMatches_outcomes (env : Env) (u : User) (pwd : String) :
    (PasswordMatches env (some u) pwd = .ok (true, none)
        ↔ env.CompareHashAndPassword u.Password pwd = none)
      ∧ (PasswordMatches env (some u) pwd = .ok (false, none)
        ↔ env.CompareHashAndPassword u.Password pwd
            = some .ErrMismatchedHashAndPassword)
      ∧ (∀ e, e ≠ GoError.ErrMismatchedHashAndPassword →
          env.CompareHashAndPassword u.Password pwd = some e →
          PasswordMatches env (some u) pwd = .ok (false, some e))
      ∧ (∀ receiver e, PasswordMatches env receiver pwd ≠ .ok (true, some e)) := by
  refine ⟨?_, ?_, ?_, ?_⟩
  · cases h : env.CompareHashAndPassword u.Password pwd with
    | none => simp [PasswordMatches, h]
    | some e =>
      by_cases he : e = GoError.ErrMismatchedHashAndPassword <;> simp [PasswordMatches, h, he]
  · cases h : env.CompareHashAndPassword u.Password pwd with
    | none => simp [PasswordMatches, h]
    | some e =>
      by_cases he : e = GoError.ErrMismatchedHashAndPassword <;> simp [PasswordMatches, h, he]
  · intro e he h
    simp [PasswordMatches, h, he]
  · intro receiver e
    cases receiver with
    | none => simp [PasswordMatches]
    | some v =>
      cases h : env.CompareHashAndPassword v.Password pwd with
      | none => simp [PasswordMatches, h]
      | some e' =>
        by_cases he : e' = GoError.ErrMismatchedHashAndPassword <;>
          simp [PasswordMatches, h, he]

/-- Witness of C9 on the sample store: a mismatch is reported as `(false, nil)`. -/
theorem passwordMatches_outcomes_witness :
    PasswordMatches sampleEnv (some alice) "wrong" = .ok (false, none) :=
  (passwordMatches_outcomes sampleEnv alice "wrong").2.1.mpr (by decide)

/-! ## JSON representation -/

/-- The JSON representation of a user does not depend on its `Password`. -/
theorem User.marshal_setPassword (u : User) (p : String) :
    User.MarshalJSON { u with Password := p } = u.MarshalJSON := by
  by_cases hf : u.FirstName.length = 0 <;> by_cases hl : u.LastName.length = 0 <;>
    simp [User.MarshalJSON, User.jsonFields, marshalStruct, isEmptyValue, hf, hl]

/-- The JSON body of an envelope does not depend on the password of the user
it carries. -/
theorem JSONResponse.marshal_withPassword (resp : JSONResponse) (p : String) :
    (resp.withPassword p).MarshalJSON = resp.MarshalJSON := by
  cases hd : resp.Data with
  | none =>
    simp [JSONResponse.withPassword, JSONResponse.MarshalJSON, JSONResponse.jsonFields, hd]
  | some v =>
    have h := User.marshal_setPassword v p
    simp only [JSONResponse.withPassword, JSONResponse.MarshalJSON, JSONResponse.jsonFields,
      hd, Option.map_some', h]

/-- C6.  The keys of the JSON representation of a user are `id`, `email`,
`active`, `created_at`, `updated_at`, with `first_name` and `last_name` present
exactly when those strings are not empty; `password` is not among them, and
the representation is the same whatever the `Password` field holds.  The
`data` member of an envelope is that representation, so the body of every
envelope the handler passes to `WriteJSON`, the 202 response, is unchanged when
the password of the user it carries is replaced. -/
theorem user_json_never_contains_password (u : User) (p : String) (env : Env) (r : String)
    (resp : JSONResponse) :
    u.MarshalJSON.keys =
        ["id", "email"] ++ (if u.FirstName.length = 0 then [] else ["first_name"])
          ++ (if u.LastName.length = 0 then [] else ["last_name"])
          ++ ["active", "created_at", "updated_at"]
      ∧ u.MarshalJSON.keys.contains "password" = false
      ∧ User.MarshalJSON { u with Password := p } = u.MarshalJSON
      ∧ resp.MarshalJSON.member "data" = resp.Data.map User.MarshalJSON
      ∧ (Authenticate env r).written.map (fun w => (w.withPassword p).MarshalJSON)
          = (Authenticate env r).written.map JSONResponse.MarshalJSON := by
  have hkeys : u.MarshalJSON.keys =
      ["id", "email"] ++ (if u.FirstName.length = 0 then [] else ["first_name"])
        ++ (if u.LastName.length = 0 then [] else ["last_name"])
        ++ ["active", "created_at", "updated_at"] := by
    by_cases hf : u.FirstName.length = 0 <;> by_cases hl : u.LastName.length = 0 <;>
      simp [User.MarshalJSON, User.jsonFields, marshalStruct, isEmptyValue, JSON.keys, hf, hl]
  refine ⟨hkeys, ?_, ?_, ?_, ?_⟩
  · rw [hkeys]
    by_cases hf : u.FirstName.length = 0 <;> by_cases hl : u.LastName.length = 0 <;>
      simp [hf, hl]
  · exact User.marshal_setPassword u p
  · cases hd : resp.Data with
    | none =>
      simp [JSONResponse.MarshalJSON, JSONResponse.jsonFields, marshalStruct, isEmptyValue,
        JSON.member, hd]
    | some v =>
      simp [JSONResponse.MarshalJSON, JSONResponse.jsonFields, marshalStruct, isEmptyValue,
        JSON.member, hd, User.MarshalJSON]
  · exact List.map_congr_left fun w _ => JSONResponse.marshal_withPassword w p

/-! ## Startup retry loop -/

/-- After `k` failed attempts that keep the counter at or below `maxDBRetries`,
a successful attempt ends the loop with that connection. -/
theorem connectLoop_fail_then_ok (drv : SqlDriver) (dsn : String) (db : DB) :
    ∀ (k fuel : Nat) (c : Int) (n : Nat), k < fuel → 0 ≤ c → c + k ≤ 10 →
      (∀ i, i < k → (openDB drv (n + i) dsn).2 ≠ none) →
      openDB drv (n + k) dsn = (some db, none) →
      connectLoop drv dsn fuel c n
        = some { connection := some db, counts := c + k, trace := retryTrace dsn k } := by
  intro k
  induction k with
  | zero =>
    intro fuel c n hfuel _ _ _ hok
    obtain ⟨f, rfl⟩ : ∃ f, fuel = f + 1 := ⟨fuel - 1, by omega⟩
    simp only [Nat.add_zero] at hok
    simp [connectLoop, hok, retryTrace]
  | succ k ih =>
    intro fuel c n hfuel hc hck hfail hok
    obtain ⟨f, rfl⟩ : ∃ f, fuel = f + 1 := ⟨fuel - 1, by omega⟩
    have h0 : (openDB drv n dsn).2 ≠ none := by simpa using hfail 0 (by omega)
    have hck' : c + 1 + (k : Int) ≤ 10 := by push_cast at hck; omega
    have hrec := ih f (c + 1) (n + 1) (by omega) (by omega) hck'
      (fun i hi => by
        have := hfail (i + 1) (by omega)
        rwa [show n + (i + 1) = n + 1 + i by omega] at this)
      (by rwa [show n + 1 + k = n + (k + 1) by omega])
    have hinc : incr64 c = c + 1 := by
      unfold incr64
      rw [if_neg (by omega)]
    have hle : ¬ (c + 1 > maxDBRetries) := by
      unfold maxDBRetries
      push_cast at hck
      omega
    cases hres : openDB drv n dsn with
    | mk conn err =>
      cases err with
      | none => rw [hres] at h0; exact absurd rfl h0
      | some e =>
        simp only [connectLoop, hres, hinc, if_neg hle, hrec, Option.map_some', retryTrace]
        simp
        ring

/-- When every attempt fails, the loop ends with nil once the counter passes
`maxDBRetries`. -/
theorem connectLoop_all_fail (drv : SqlDriver) (dsn : String) :
    ∀ (m fuel : Nat) (c : Int) (n : Nat), m < fuel → 0 ≤ c → c + m = 10 →
      (∀ i, (openDB drv (n + i) dsn).2 ≠ none) →
      connectLoop drv dsn fuel c n
        = some { connection := none, counts := 11, trace := retryTrace dsn m } := by
  intro m
  induction m with
  | zero =>
    intro fuel c n hfuel _ hcm hfail
    obtain ⟨f, rfl⟩ : ∃ f, fuel = f + 1 := ⟨fuel - 1, by omega⟩
    have hc : c = 10 := by simpa using hcm
    subst hc
    have h0 : (openDB drv n dsn).2 ≠ none := by simpa using hfail 0
    cases hres : openDB drv n dsn with
    | mk conn err =>
      cases err with
      | none => rw [hres] at h0; exact absurd rfl h0
      | some e => simp [connectLoop, hres, incr64, maxDBRetries, retryTrace]
  | succ m ih =>
    intro fuel c n hfuel hc hcm hfail
    obtain ⟨f, rfl⟩ : ∃ f, fuel = f + 1 := ⟨fuel - 1, by omega⟩
    have h0 : (openDB drv n dsn).2 ≠ none := by simpa using hfail 0
    have hcm' : c + 1 + (m : Int) = 10 := by push_cast at hcm; omega
    have hrec := ih f (c + 1) (n + 1) (by omega) (by omega) hcm'
      (fun i => by
        have := hfail (i + 1)
        rwa [show n + (i + 1) = n + 1 + i by omega] at this)
    have hinc : incr64 c = c + 1 := by
      unfold incr64
      rw [if_neg (by omega)]
    have hle : ¬ (c + 1 > maxDBRetries) := by
      unfold maxDBRetries
      push_cast at hcm
      omega
    cases hres : openDB drv n dsn with
    | mk conn err =>
      cases err with
      | none => rw [hres] at h0; exact absurd rfl h0
      | some e =>
        simp only [connectLoop, hres, hinc, if_neg hle, hrec, Option.map_some', retryTrace]

/-- The effects of `k` retries hold `k + 1` calls of `openDB` and `k` sleeps. -/
theorem retryTrace_counts (dsn : String) (k : Nat) :
    openCalls (retryTrace dsn k) = k + 1 ∧ sleeps (retryTrace dsn k) = k := by
  induction k with
  | zero => simp [retryTrace, openCalls, sleeps]
  | succ k ih =>
    obtain ⟨ho, hs⟩ := ih
    simp only [openCalls] at ho
    simp only [sleeps] at hs
    simp [retryTrace, openCalls, sleeps, ho, hs]

/-- C8.  With the counter at 0 and fuel for 11 iterations or more,
`connectToDB` returns.  If every call of `openDB` fails it returns nil after
11 calls of `openDB` (one attempt and 10 retries), with one 2-second sleep
before each retry and none after the last attempt.  If the first `k` calls
fail and call `k`, for `k` at most 10, succeeds, it returns that connection
after `k + 1` calls and `k` sleeps, without a further attempt. -/
theorem connectToDB_retry_bound (drv : SqlDriver) (dsn : String) (fuel : Nat)
    (hfuel : 11 ≤ fuel) :
    ((∀ n, (openDB drv n dsn).2 ≠ none) →
        connectToDB drv dsn fuel 0
          = some { connection := none, counts := 11, trace := retryTrace dsn 10 })
      ∧ (∀ (k : Nat) (db : DB), k ≤ 10 →
          (∀ i, i < k → (openDB drv i dsn).2 ≠ none) →
          openDB drv k dsn = (some db, none) →
          connectToDB drv dsn fuel 0
            = some { connection := some db, counts := k, trace := retryTrace dsn k })
      ∧ (∀ k, openCalls (retryTrace dsn k) = k + 1 ∧ sleeps (retryTrace dsn k) = k)
      ∧ retryTrace dsn 2
          = [.openDB dsn, .Sleep 2, .openDB dsn, .Sleep 2, .openDB dsn] := by
  refine ⟨?_, ?_, retryTrace_counts dsn, rfl⟩
  · intro hfail
    exact connectLoop_all_fail drv dsn 10 fuel 0 0 (by omega) (by omega) (by norm_num)
      (fun i => by simpa using hfail i)
  · intro k db hk hfail hok
    have h := connectLoop_fail_then_ok drv dsn db k fuel 0 0 (by omega) (by omega)
      (by omega) (fun i hi => by simpa using hfail i hi) (by simpa using hok)
    simpa [connectToDB] using h

/-- Witness of C8: a database that never answers gives nil after 11 attempts
and 10 sleeps; one that answers at the fourth attempt is returned then. -/
theorem connectToDB_retry_bound_witness :
    connectToDB downDriver "host=postgres" 11 0
        = some { connection := none, counts := 11, trace := retryTrace "host=postgres" 10 }
      ∧ connectToDB slowDriver "host=postgres" 11 0
        = some { connection := some ⟨3⟩, counts := 3, trace := retryTrace "host=postgres" 3 } :=
  ⟨(connectToDB_retry_bound downDriver "host=postgres" 11 (by decide)).1
      (fun n => by simp [openDB, downDriver]),
    (connectToDB_retry_bound slowDriver "host=postgres" 11 (by decide)).2.1 3 ⟨3⟩ (by decide)
      (fun i hi => by simp [openDB, slowDriver, hi]) (by simp [openDB, slowDriver])⟩

end AuthService
